import Mathlib

/-!
Shallow embedding of the hospital-management REST backend (Django app
`hms_api`): the data model of `models.py`, the permission classes of
`permissions.py`, the serializers of `serializers.py` and the request
handlers of `views.py`, translated into executable Lean definitions.

Machine conventions of the embedding:
  - database rows are Lean structures; each table is a `List` inside `State`;
  - primary keys come from a single counter `nextId` (auto-increment);
  - `auto_now_add` timestamps come from a logical `clock` that advances on
    every row insertion, so later rows carry strictly larger `created_at`;
  - Python expressions that can raise (dereferencing `user.profile` when no
    Profile row exists, reading a missing attribute) are modelled with
    `Except String`, the message recording the Python exception;
  - each endpoint takes the token-resolved, authenticated acting user as a
    `UserRec` argument (DRF `IsAuthenticated` has already passed), plus the
    parsed request payload, and returns its result (and the new `State` for
    the mutating endpoints).
-/

/-- Row of the Django `auth_user` table (the fields this app reads). -/
structure UserRec where
  id : Nat
  username : String
  email : String
  password : String
  is_superuser : Bool
  is_active : Bool
deriving Repr, DecidableEq

/-- Row of `Profile` (`models.py`): one-to-one with User, `role` defaulting
to doctor. The implicit primary key is irrelevant to the app and omitted;
the one-to-one column `user` is `user_id`. -/
structure ProfileRec where
  user_id : Nat
  role : String
deriving Repr, DecidableEq

/-- Row of `Patient` (`models.py`). -/
structure PatientRec where
  id : Nat
  name : String
  age : Int
  gender : String
  address : String
  created_by : Nat
  created_at : Nat
deriving Repr, DecidableEq

/-- Row of `MedicalRecord` (`models.py`); `patient` is the foreign-key
column `patient_id`. -/
structure MedicalRecordRec where
  id : Nat
  patient_id : Nat
  symptoms : String
  diagnosis : String
  treatment : String
  created_at : Nat
deriving Repr, DecidableEq

/-- Row of the DRF `authtoken` Token table. -/
structure TokenRec where
  user_id : Nat
  key : String
deriving Repr, DecidableEq

/-- The persistent store. -/
structure State where
  users : List UserRec
  profiles : List ProfileRec
  patients : List PatientRec
  records : List MedicalRecordRec
  tokens : List TokenRec
  nextId : Nat
  clock : Nat
deriving Repr, DecidableEq

/-- The empty database. -/
def initialState : State :=
  { users := [], profiles := [], patients := [], records := [], tokens := [],
    nextId := 1, clock := 0 }

/-- `User.objects.filter(username=n).first()`; usernames are unique. -/
def findUserByUsername (s : State) (n : String) : Option UserRec :=
  s.users.find? (fun u => u.username == n)

/-- `Patient.objects.get(id=pk)` as an Option (none = DoesNotExist). -/
def findPatientById (s : State) (pk : Nat) : Option PatientRec :=
  s.patients.find? (fun p => p.id == pk)

/-- The reverse one-to-one accessor `user.profile` as an Option
(none = RelatedObjectDoesNotExist). -/
def profileFor (s : State) (uid : Nat) : Option ProfileRec :=
  s.profiles.find? (fun pr => pr.user_id == uid)

/-- `user.profile.role`, as an Option. -/
def roleOf (s : State) (uid : Nat) : Option String :=
  (profileFor s uid).map (fun pr => pr.role)

/-! Signal receivers of `models.py`. Both are connected to `post_save` of
`User`, in this order. -/

/-- Receiver `create_user_profile`: on creation of a User, insert a Profile
for it with the default role doctor. -/
def create_user_profile (s : State) (uid : Nat) : State :=
  { s with profiles := s.profiles ++ [{ user_id := uid, role := "doctor" }] }

/-- Receiver `save_user_profile`: `instance.profile.save()` re-saves the
existing Profile row without changing any field, hence the identity on the
store (on the creation path the row exists, just inserted by
`create_user_profile`). -/
def save_user_profile (s : State) (_uid : Nat) : State := s

/-- `User.objects.create_user(...)` (and `create_superuser` with
`su := true`): inserts the user row, which fires `post_save` with
`created=True`, running the two receivers above. -/
def create_user (s : State) (username email password : String) (su : Bool) :
    State × UserRec :=
  let u : UserRec :=
    { id := s.nextId, username := username, email := email,
      password := password, is_superuser := su, is_active := true }
  let s1 : State := { s with users := s.users ++ [u], nextId := s.nextId + 1 }
  (save_user_profile (create_user_profile s1 u.id) u.id, u)

/-- Database error surfaced by a rejected insert. -/
inductive DbError where
  | integrityError
deriving Repr, DecidableEq

/-- `Profile.objects.create(user=user, role=role)`: the one-to-one column is
unique, so a second Profile row for the same user is rejected with
IntegrityError and the store is unchanged. -/
def profileObjectsCreate (s : State) (uid : Nat) (role : String) :
    Except DbError State :=
  if s.profiles.any (fun pr => pr.user_id == uid) then
    .error .integrityError
  else
    .ok { s with profiles := s.profiles ++ [{ user_id := uid, role := role }] }

/-- `Token.objects.get_or_create(user=user)`: reuse the existing token row
if present, else insert one (the key is opaque; derive it from the user id). -/
def token_get_or_create (s : State) (uid : Nat) : State × String :=
  match s.tokens.find? (fun t => t.user_id == uid) with
  | some t => (s, t.key)
  | none =>
      let k := "tok" ++ toString uid
      ({ s with tokens := s.tokens ++ [{ user_id := uid, key := k }] }, k)

/-! Signup (`UserRegistrationSerializer` of `serializers.py` plus the
`signup` view of `views.py`). -/

/-- Parsed body of a signup request. -/
structure SignupData where
  username : String
  email : String
  password : String
  password2 : String
  role : String
deriving Repr, DecidableEq

/-- Field-scoped validation failures of `UserRegistrationSerializer`
(each is a 400 response keyed by field). -/
inductive SignupFieldError where
  /-- UniqueValidator on the unique `username` model field. -/
  | usernameTaken
  /-- ChoiceField `role` outside `Profile.USER_ROLES`. -/
  | invalidRole
  /-- `validate`: the two password fields differ. -/
  | passwordMismatch
deriving Repr, DecidableEq

/-- `UserRegistrationSerializer.is_valid()`: field validators (username
uniqueness, role choices) then the object-level `validate` (password match). -/
def signupValidate (s : State) (d : SignupData) : Option SignupFieldError :=
  if s.users.any (fun u => u.username == d.username) then
    some .usernameTaken
  else if ¬(d.role == "doctor" || d.role == "admin") then
    some .invalidRole
  else if d.password ≠ d.password2 then
    some .passwordMismatch
  else
    none

/-- Outcome of the `signup` view. -/
inductive SignupResult where
  /-- 400 with the serializer field errors. -/
  | validationError (e : SignupFieldError)
  /-- 400 with detail "Username or email already exists." (the view's
  IntegrityError handler). -/
  | conflict
  /-- 201 with message, user id, username and `user.profile.role`. -/
  | success (user_id : Nat) (username : String) (role : String)
deriving Repr, DecidableEq

/-- The `signup` view: validate; on success run
`UserRegistrationSerializer.create`, which calls `create_user` (firing the
`post_save` receivers) and then `Profile.objects.create(user, role)`;
an IntegrityError from `serializer.save()` is caught and returned as the
conflict response, with no enclosing transaction (rows already inserted
stay inserted). `Token.objects.get_or_create` runs only after a successful
save. -/
def signup (s : State) (d : SignupData) : State × SignupResult :=
  match signupValidate s d with
  | some e => (s, .validationError e)
  | none =>
      let su := create_user s d.username d.email d.password false
      match profileObjectsCreate su.fst su.snd.id d.role with
      | .error _ => (su.fst, .conflict)
      | .ok s2 =>
          let s3 := (token_get_or_create s2 su.snd.id).fst
          (s3, .success su.snd.id su.snd.username ((roleOf s3 su.snd.id).getD ""))

/-! Login (`login_view` of `views.py`). -/

/-- Django `authenticate` with the default ModelBackend: look the username
up, check the password, and require an active user; any failure yields
None. -/
def authenticate (s : State) (username password : String) : Option UserRec :=
  match findUserByUsername s username with
  | none => none
  | some u => if u.password == password && u.is_active then some u else none

/-- Outcome of `login_view`. -/
inductive LoginResult where
  /-- 200 with token, user id, username and role. -/
  | success (token : String) (user_id : Nat) (username : String) (role : String)
  /-- 401 with detail "Invalid credentials". -/
  | invalidCredentials
  /-- 500: `user.profile.role` raised because the user has no Profile row. -/
  | profileMissingError
deriving Repr, DecidableEq

/-- HTTP status of a login response. -/
def LoginResult.status : LoginResult → Nat
  | .success _ _ _ _ => 200
  | .invalidCredentials => 401
  | .profileMissingError => 500

/-- The `detail` field of a login response body (empty when the body has
no detail field). -/
def LoginResult.detail : LoginResult → String
  | .success _ _ _ _ => ""
  | .invalidCredentials => "Invalid credentials"
  | .profileMissingError => "An unexpected error occurred."

/-- The `login_view` handler: `authenticate`; on success get-or-create the
token and answer 200 with `user.profile.role`; on failure answer 401 with
detail "Invalid credentials" (the same literal response for an unknown
username and for a wrong password). -/
def login_view (s : State) (username password : String) : State × LoginResult :=
  match authenticate s username password with
  | none => (s, .invalidCredentials)
  | some u =>
      let sk := token_get_or_create s u.id
      match roleOf sk.fst u.id with
      | none => (sk.fst, .profileMissingError)
      | some r => (sk.fst, .success sk.snd u.id u.username r)

/-! Permission classes of `permissions.py`. The acting user reached the
view through token authentication, so `request.user` is set and
`request.user.is_authenticated` is true; `user.profile.role` raises when
the user has no Profile row, modelled with `Except String`. -/

/-- `IsDoctor.has_permission`: authenticated and role is doctor. -/
def IsDoctor_has_permission (s : State) (u : UserRec) : Except String Bool :=
  match roleOf s u.id with
  | none => .error "RelatedObjectDoesNotExist: User has no profile."
  | some r => .ok (r == "doctor")

/-- `IsAdmin.has_permission`: authenticated and (superuser or role admin);
the Python `or` short-circuits, so a superuser never dereferences the
profile. -/
def IsAdmin_has_permission (s : State) (u : UserRec) : Except String Bool :=
  if u.is_superuser then .ok true
  else
    match roleOf s u.id with
    | none => .error "RelatedObjectDoesNotExist: User has no profile."
    | some r => .ok (r == "admin")

/-- `IsOwnerOrAdmin.has_object_permission` (the object is a Patient in the
one view using it): admin or superuser always allowed, otherwise
`obj.created_by == request.user`. -/
def IsOwnerOrAdmin_has_object_permission (s : State) (u : UserRec)
    (obj : PatientRec) : Except String Bool :=
  if u.is_superuser then .ok true
  else
    match roleOf s u.id with
    | none => .error "RelatedObjectDoesNotExist: User has no profile."
    | some r =>
        if r == "admin" then .ok true
        else .ok (obj.created_by == u.id)

/-- The dynamically-typed `obj` argument of
`IsPatientRecordOwnerOrAdmin.has_object_permission`: the views hand this
permission either a MedicalRecord or a Patient. -/
inductive ApiObj where
  | patient (p : PatientRec)
  | record (r : MedicalRecordRec)
deriving Repr, DecidableEq

/-- The Python expression `obj.patient.created_by`: a MedicalRecord has the
`patient` foreign key and the access resolves it; a Patient has no
attribute `patient`, so the access raises AttributeError. -/
def obj_patient_created_by (s : State) : ApiObj → Except String Nat
  | .record r =>
      match findPatientById s r.patient_id with
      | some p => .ok p.created_by
      | none => .error "Patient matching query does not exist."
  | .patient _ => .error "AttributeError: Patient object has no attribute patient"

/-- `IsPatientRecordOwnerOrAdmin.has_object_permission`: admin or superuser
always allowed; otherwise evaluate `obj.patient.created_by == request.user`
(which raises when `obj` is a Patient). -/
def IsPatientRecordOwnerOrAdmin_has_object_permission (s : State)
    (u : UserRec) (obj : ApiObj) : Except String Bool :=
  if u.is_superuser then .ok true
  else
    match roleOf s u.id with
    | none => .error "RelatedObjectDoesNotExist: User has no profile."
    | some r =>
        if r == "admin" then .ok true
        else (obj_patient_created_by s obj).map (fun c => c == u.id)

/-- `IsPatientRecordOwnerOrAdmin.has_permission`: admin or superuser always
allowed, otherwise authenticated with role doctor. -/
def IsPatientRecordOwnerOrAdmin_has_permission (s : State) (u : UserRec) :
    Except String Bool :=
  if u.is_superuser then .ok true
  else
    match roleOf s u.id with
    | none => .error "RelatedObjectDoesNotExist: User has no profile."
    | some r =>
        if r == "admin" then .ok true
        else .ok (r == "doctor")

/-- The composed permission `(IsDoctor | IsAdmin)` of
`PatientListCreateView`: DRF OR evaluates `IsDoctor.has_permission` first
and, only when it returns False, `IsAdmin.has_permission`. -/
def gateDoctorOrAdmin (s : State) (u : UserRec) : Except String Bool :=
  match IsDoctor_has_permission s u with
  | .error e => .error e
  | .ok true => .ok true
  | .ok false => IsAdmin_has_permission s u

/-! Patient endpoints (`PatientSerializer` of `serializers.py`,
`PatientListCreateView` and `PatientDetailView` of `views.py`). -/

/-- Parsed body of a create-patient request. The `created_by` key is
whatever owner the caller tried to supply; the serializer declares that
field read-only, so deserialization never reads it. -/
structure PatientPayload where
  name : String
  age : Int
  gender : String
  address : String
  created_by : Option Nat
deriving Repr, DecidableEq

/-- Field-scoped validation failures of `PatientSerializer` (each is a 400
response keyed by field). -/
inductive PatientFieldError where
  /-- CharField `name` blank. -/
  | nameBlank
  /-- CharField `name` over max_length 255. -/
  | nameTooLong
  /-- `validate_age`: "Age must be greater than 0." -/
  | ageNotPositive
  /-- ChoiceField `gender` outside GENDER_CHOICES. -/
  | genderInvalid
  /-- CharField `address` blank. -/
  | addressBlank
deriving Repr, DecidableEq

/-- `PatientSerializer.is_valid()` over the writable fields name, age,
gender, address (`created_by` and `created_at` are read-only). -/
def patientValidate (d : PatientPayload) : Option PatientFieldError :=
  if d.name == "" then some .nameBlank
  else if 255 < d.name.length then some .nameTooLong
  else if d.age ≤ 0 then some .ageNotPositive
  else if ¬(d.gender == "Male" || d.gender == "Female" || d.gender == "Other") then
    some .genderInvalid
  else if d.address == "" then some .addressBlank
  else none

/-- Outcome of POST `/patients/`. -/
inductive CreatePatientResult where
  /-- 500: a permission class raised while dereferencing the profile. -/
  | permissionError (e : String)
  /-- 403 with detail "You do not have permission to perform this action." -/
  | forbiddenGate
  /-- 400 with the serializer field errors. -/
  | validationError (e : PatientFieldError)
  /-- Raised `APIException(detail)`: DRF renders it with the class default
  status 500 (the `code=...` keyword sets the error code slug, not the HTTP
  status). -/
  | apiError (detail : String)
  /-- 201 with the serialized patient. -/
  | created (p : PatientRec)
deriving Repr, DecidableEq

/-- HTTP status of a create-patient response. -/
def CreatePatientResult.httpStatus : CreatePatientResult → Nat
  | .permissionError _ => 500
  | .forbiddenGate => 403
  | .validationError _ => 400
  | .apiError _ => 500
  | .created _ => 201

/-- POST of `PatientListCreateView`: permission gate
`IsAuthenticated, (IsDoctor | IsAdmin)`, serializer validation, then
`perform_create`, which re-checks that the actor is a superuser or has a
profile with role doctor (raising `APIException("Only doctors can create
patients.")` otherwise) and saves with `created_by=self.request.user`. -/
def createPatient (s : State) (actor : UserRec) (d : PatientPayload) :
    State × CreatePatientResult :=
  match gateDoctorOrAdmin s actor with
  | .error e => (s, .permissionError e)
  | .ok false => (s, .forbiddenGate)
  | .ok true =>
      match patientValidate d with
      | some e => (s, .validationError e)
      | none =>
          if ¬(actor.is_superuser || roleOf s actor.id == some "doctor") then
            (s, .apiError "Only doctors can create patients.")
          else
            let p : PatientRec :=
              { id := s.nextId, name := d.name, age := d.age,
                gender := d.gender, address := d.address,
                created_by := actor.id, created_at := s.clock }
            ({ s with patients := s.patients ++ [p], nextId := s.nextId + 1,
                      clock := s.clock + 1 },
             .created p)

/-- Meta ordering of Patient rows: newest first by `created_at`. -/
def patientNewer (a b : PatientRec) : Prop := b.created_at ≤ a.created_at

instance : DecidableRel patientNewer := fun a b => Nat.decLe b.created_at a.created_at

instance : IsTotal PatientRec patientNewer :=
  ⟨fun a b => (le_total b.created_at a.created_at).imp id id⟩

instance : IsTrans PatientRec patientNewer :=
  ⟨fun _ _ _ h1 h2 => le_trans h2 h1⟩

/-- A Patient queryset materialized under the model Meta ordering
`-created_at`. -/
def patientsNewestFirst (l : List PatientRec) : List PatientRec :=
  l.insertionSort patientNewer

/-- Outcome of GET `/patients/`. -/
inductive ListPatientsResult where
  /-- 500: a permission class raised while dereferencing the profile. -/
  | permissionError (e : String)
  /-- 403 with detail "You do not have permission to perform this action." -/
  | forbiddenGate
  /-- 200 with the serialized queryset. -/
  | ok (l : List PatientRec)
deriving Repr, DecidableEq

/-- `PatientListCreateView.get_queryset`: all patients for a superuser or a
user whose profile role is admin (the `hasattr` guard makes the role test
False rather than raising when the profile is missing), else only the
patients the user created. -/
def get_queryset_patients (s : State) (u : UserRec) : List PatientRec :=
  if u.is_superuser || roleOf s u.id == some "admin" then
    patientsNewestFirst s.patients
  else
    patientsNewestFirst (s.patients.filter (fun p => p.created_by == u.id))

/-- GET of `PatientListCreateView`: the same gate as the POST, then the
queryset. -/
def listPatients (s : State) (actor : UserRec) : ListPatientsResult :=
  match gateDoctorOrAdmin s actor with
  | .error e => .permissionError e
  | .ok false => .forbiddenGate
  | .ok true => .ok (get_queryset_patients s actor)

/-- Outcome of GET `/patients/{pk}/`. -/
inductive RetrievePatientResult where
  /-- 404: `get_object` found no Patient row with this pk. -/
  | notFound
  /-- 500: the permission class raised while dereferencing the profile. -/
  | permissionError (e : String)
  /-- 403 with detail "You do not have permission to perform this action." -/
  | forbidden
  /-- 200 with the serialized patient. -/
  | ok (p : PatientRec)
deriving Repr, DecidableEq

/-- `PatientDetailView` (RetrieveAPIView with
`IsAuthenticated, IsOwnerOrAdmin`): `IsOwnerOrAdmin` defines no
`has_permission`, so the request-level gate is authentication alone;
`get_object` resolves the pk against `Patient.objects.all()` first (404
when absent) and only then runs `check_object_permissions` (403 when the
object check fails). -/
def retrievePatient (s : State) (actor : UserRec) (pk : Nat) :
    RetrievePatientResult :=
  match findPatientById s pk with
  | none => .notFound
  | some p =>
      match IsOwnerOrAdmin_has_object_permission s actor p with
      | .error e => .permissionError e
      | .ok false => .forbidden
      | .ok true => .ok p

/-! Medical record endpoints (`MedicalRecordSerializer` of
`serializers.py`, `MedicalRecordAddView` and `PatientMedicalRecordListView`
of `views.py`). -/

/-- Parsed body of an add-record request: the `patient` key carries the
patient primary key. -/
structure RecordPayload where
  patient : Nat
  symptoms : String
  diagnosis : String
  treatment : String
deriving Repr, DecidableEq

/-- Outcome of POST `/patients/records/add/`. -/
inductive AddRecordResult where
  /-- 500: a permission class or validator raised while dereferencing the
  profile. -/
  | permissionError (e : String)
  /-- 403 with detail "You do not have permission to perform this action."
  (permission gate denied). -/
  | forbiddenGate
  /-- 400 keyed by `patient`: PrimaryKeyRelatedField found no Patient row
  with the given pk (DRF message "Invalid pk ... - object does not exist."). -/
  | invalidPk
  /-- 400 keyed by `field` with message `msg` (raised by a field validator
  such as `validate_patient`). -/
  | fieldValidationError (field : String) (msg : String)
  /-- 400 keyed by a blank required text field. -/
  | blankField
  /-- Raised `APIException(detail)`: rendered with the class default status
  500 (the `code=...` keyword is the error slug, not the HTTP status). -/
  | apiError (detail : String)
  /-- 201 with the serialized record. -/
  | created (r : MedicalRecordRec)
deriving Repr, DecidableEq

/-- HTTP status of an add-record response. -/
def AddRecordResult.httpStatus : AddRecordResult → Nat
  | .permissionError _ => 500
  | .forbiddenGate => 403
  | .invalidPk => 400
  | .fieldValidationError _ _ => 400
  | .blankField => 400
  | .apiError _ => 500
  | .created _ => 201

/-- `MedicalRecordSerializer.validate_patient`: for an actor that is
neither superuser nor role admin (the role test dereferences the profile),
reject a patient not created by the actor with the message below; the
result `some msg` stands for the raised ValidationError. -/
def validate_patient (s : State) (actor : UserRec) (p : PatientRec) :
    Except String (Option String) :=
  if actor.is_superuser then .ok none
  else
    match roleOf s actor.id with
    | none => .error "RelatedObjectDoesNotExist: User has no profile."
    | some r =>
        if r != "admin" then
          if ¬(p.created_by == actor.id) then
            .ok (some "You can only add medical records to your own patients.")
          else .ok none
        else .ok none

/-- POST of `MedicalRecordAddView`: permission gate
`IsAuthenticated, IsDoctor`; then serializer validation (the `patient`
PrimaryKeyRelatedField resolves the pk, the required text fields must be
non-blank, `validate_patient` runs the ownership rule); only then
`perform_create`, which re-fetches the patient from the raw request data,
re-checks ownership for non-admins, and saves the record bound to the
resolved patient. -/
def addRecord (s : State) (actor : UserRec) (d : RecordPayload) :
    State × AddRecordResult :=
  match IsDoctor_has_permission s actor with
  | .error e => (s, .permissionError e)
  | .ok false => (s, .forbiddenGate)
  | .ok true =>
      match findPatientById s d.patient with
      | none => (s, .invalidPk)
      | some p =>
          if d.symptoms == "" || d.diagnosis == "" || d.treatment == "" then
            (s, .blankField)
          else
            match validate_patient s actor p with
            | .error e => (s, .permissionError e)
            | .ok (some msg) => (s, .fieldValidationError "patient" msg)
            | .ok none =>
                match findPatientById s d.patient with
                | none => (s, .apiError "Patient not found.")
                | some p2 =>
                    if ¬(actor.is_superuser || roleOf s actor.id == some "admin")
                        && ¬(p2.created_by == actor.id) then
                      (s, .apiError "You can only add medical records to your own patients.")
                    else
                      let r : MedicalRecordRec :=
                        { id := s.nextId, patient_id := p2.id,
                          symptoms := d.symptoms, diagnosis := d.diagnosis,
                          treatment := d.treatment, created_at := s.clock }
                      ({ s with records := s.records ++ [r],
                                nextId := s.nextId + 1, clock := s.clock + 1 },
                       .created r)

/-- Meta ordering of MedicalRecord rows: newest first by `created_at`. -/
def recordNewer (a b : MedicalRecordRec) : Prop := b.created_at ≤ a.created_at

instance : DecidableRel recordNewer := fun a b => Nat.decLe b.created_at a.created_at

instance : IsTotal MedicalRecordRec recordNewer :=
  ⟨fun a b => (le_total b.created_at a.created_at).imp id id⟩

instance : IsTrans MedicalRecordRec recordNewer :=
  ⟨fun _ _ _ h1 h2 => le_trans h2 h1⟩

/-- A MedicalRecord queryset materialized under the model Meta ordering
`-created_at`. -/
def recordsNewestFirst (l : List MedicalRecordRec) : List MedicalRecordRec :=
  l.insertionSort recordNewer

/-- Outcome of GET `/patients/{pk}/records/`. -/
inductive ListRecordsResult where
  /-- 500: a permission class raised (profile missing, or the AttributeError
  from `obj.patient` on a Patient object). -/
  | permissionError (e : String)
  /-- 403 with detail "You do not have permission to perform this action."
  (request-level gate denied). -/
  | forbiddenGate
  /-- Raised `APIException("Patient not found.")`: rendered with the class
  default status 500. -/
  | apiError (detail : String)
  /-- 403: `check_object_permissions` denied. -/
  | forbiddenObject
  /-- 200 with the serialized records of the patient. -/
  | ok (l : List MedicalRecordRec)
deriving Repr, DecidableEq

/-- HTTP status of a list-records response. -/
def ListRecordsResult.httpStatus : ListRecordsResult → Nat
  | .permissionError _ => 500
  | .forbiddenGate => 403
  | .apiError _ => 500
  | .forbiddenObject => 403
  | .ok _ => 200

/-- GET of `PatientMedicalRecordListView`: request-level gate
`IsAuthenticated, IsPatientRecordOwnerOrAdmin.has_permission`; then
`get_queryset` resolves the patient pk (raising
`APIException("Patient not found.")` when absent), calls
`check_object_permissions` handing the permission the Patient object, and
returns the records filtered to that patient. -/
def listRecords (s : State) (actor : UserRec) (pk : Nat) : ListRecordsResult :=
  match IsPatientRecordOwnerOrAdmin_has_permission s actor with
  | .error e => .permissionError e
  | .ok false => .forbiddenGate
  | .ok true =>
      match findPatientById s pk with
      | none => .apiError "Patient not found."
      | some p =>
          match IsPatientRecordOwnerOrAdmin_has_object_permission s actor
              (.patient p) with
          | .error e => .permissionError e
          | .ok false => .forbiddenObject
          | .ok true =>
              .ok (recordsNewestFirst
                (s.records.filter (fun r => r.patient_id == p.id)))

/-! A concrete store mirroring the fixture of `tests.py`: two doctors, a
superuser admin, a plain (non-superuser) admin, patients of both doctors
and two records for the first patient of doctor 1. -/

/-- Doctor 1 of the test fixture. -/
def doctor1 : UserRec :=
  { id := 1, username := "doctor1", email := "", password := "doc1pass",
    is_superuser := false, is_active := true }

/-- Doctor 2 of the test fixture. -/
def doctor2 : UserRec :=
  { id := 2, username := "doctor2", email := "", password := "doc2pass",
    is_superuser := false, is_active := true }

/-- The superuser admin of the test fixture (role admin). -/
def adminSuper : UserRec :=
  { id := 3, username := "admin", email := "", password := "adminpass",
    is_superuser := true, is_active := true }

/-- A non-superuser user whose profile role is admin. -/
def adminPlain : UserRec :=
  { id := 4, username := "plainadmin", email := "", password := "plainpass",
    is_superuser := false, is_active := true }

/-- Patient A, created by doctor 1. -/
def patientA : PatientRec :=
  { id := 10, name := "Patient A", age := 30, gender := "Male",
    address := "123 Main St", created_by := 1, created_at := 5 }

/-- Patient C, created by doctor 2. -/
def patientC : PatientRec :=
  { id := 11, name := "Patient C", age := 25, gender := "Other",
    address := "789 Pine Rd", created_by := 2, created_at := 6 }

/-- A record of Patient A. -/
def record1 : MedicalRecordRec :=
  { id := 20, patient_id := 10, symptoms := "Fever", diagnosis := "Flu",
    treatment := "Rest", created_at := 7 }

/-- The populated store used for concrete evaluations. -/
def demoState : State :=
  { users := [doctor1, doctor2, adminSuper, adminPlain],
    profiles := [{ user_id := 1, role := "doctor" },
                 { user_id := 2, role := "doctor" },
                 { user_id := 3, role := "admin" },
                 { user_id := 4, role := "admin" }],
    patients := [patientA, patientC],
    records := [record1],
    tokens := [],
    nextId := 30, clock := 8 }

/-! Claim theorems. -/

/-- C1: the claim says a signup with a fresh username and email, matching
passwords and an explicit role succeeds and leaves one User whose Profile
has the requested role. On the code the `post_save` hook has already
inserted the default Profile when `UserRegistrationSerializer.create` runs
its own `Profile.objects.create`, so the one-to-one uniqueness is violated,
the view answers 400 conflict, and the user that was left behind keeps the
default role doctor instead of the requested admin. This theorem evaluates
the code at that failing input. -/
theorem C1_signup_duplicate_profile_conflict :
    (signup initialState
      { username := "testadmin", email := "admin@example.com",
        password := "password123", password2 := "password123",
        role := "admin" }).snd = SignupResult.conflict ∧
    roleOf (signup initialState
      { username := "testadmin", email := "admin@example.com",
        password := "password123", password2 := "password123",
        role := "admin" }).fst 1 = some "doctor" ∧
    ((signup initialState
      { username := "testadmin", email := "admin@example.com",
        password := "password123", password2 := "password123",
        role := "admin" }).fst).users.length = 1 := by
  refine ⟨rfl, rfl, rfl⟩

/-- C2: the claim says the list-records authorization decision never
raises and that a doctor listing records for a patient they created gets
the records. On the code `IsPatientRecordOwnerOrAdmin.has_object_permission`
evaluates `obj.patient.created_by` while the view hands it the Patient
itself, which has no attribute `patient`, so for every non-admin doctor the
decision raises AttributeError (a 500), even for the owner. This theorem
evaluates the code at that failing input (doctor 1 listing the records of
their own patient A). -/
theorem C2_owner_doctor_list_records_raises :
    listRecords demoState doctor1 patientA.id =
      ListRecordsResult.permissionError
        "AttributeError: Patient object has no attribute patient" ∧
    (listRecords demoState doctor1 patientA.id).httpStatus = 500 := by
  refine ⟨rfl, rfl⟩

/-- C3: the claim says a doctor adding a record to another doctor patient
gets 403 with the exact detail message, and a nonexistent patient id gets
404. On the code both outcomes are produced by serializer validation, so
both are 400: the ownership rule raises a field-scoped ValidationError
(carrying the same message text but keyed by `patient` with status 400,
not a 403 detail), and a missing pk fails the PrimaryKeyRelatedField with
a 400 invalid-pk error, never reaching the 404 branch of `perform_create`.
This theorem evaluates the code at both failing inputs. -/
theorem C3_add_record_wrong_statuses :
    (addRecord demoState doctor1
      { patient := 11, symptoms := "Headache", diagnosis := "Migraine",
        treatment := "Painkillers" }).snd =
      AddRecordResult.fieldValidationError "patient"
        "You can only add medical records to your own patients." ∧
    ((addRecord demoState doctor1
      { patient := 11, symptoms := "Headache", diagnosis := "Migraine",
        treatment := "Painkillers" }).snd).httpStatus = 400 ∧
    (addRecord demoState doctor1
      { patient := 999, symptoms := "Headache", diagnosis := "Migraine",
        treatment := "Painkillers" }).snd = AddRecordResult.invalidPk ∧
    ((addRecord demoState doctor1
      { patient := 999, symptoms := "Headache", diagnosis := "Migraine",
        treatment := "Painkillers" }).snd).httpStatus = 400 := by
  refine ⟨rfl, rfl, rfl, rfl⟩

/-- C4: the claim says the add-record entry gate admits doctors and
admins, in particular that an authenticated user with role admin passes it
and can add a record to any existing patient. On the code the gate is
`IsAuthenticated, IsDoctor` alone, and `IsDoctor` demands profile role
doctor, so the admin superuser of the test fixture is denied with 403
before any record can be created. This theorem evaluates the code at that
failing input. -/
theorem C4_admin_denied_at_add_record_gate :
    (addRecord demoState adminSuper
      { patient := 11, symptoms := "Admin added symptoms",
        diagnosis := "Admin diagnosis", treatment := "Admin treatment" }).snd =
      AddRecordResult.forbiddenGate ∧
    ((addRecord demoState adminSuper
      { patient := 11, symptoms := "Admin added symptoms",
        diagnosis := "Admin diagnosis", treatment := "Admin treatment" }).snd).httpStatus
      = 403 ∧
    ((addRecord demoState adminSuper
      { patient := 11, symptoms := "Admin added symptoms",
        diagnosis := "Admin diagnosis", treatment := "Admin treatment" }).fst).records
      = demoState.records := by
  refine ⟨rfl, rfl, rfl⟩

/-- C5 counterexample: the claim says every actor satisfying isDoctor OR
isAdmin may create a patient, in particular a non-superuser user with role
admin submitting a valid request gets a successful creation. On the code
such a user passes the collection gate but `perform_create` raises
`APIException("Only doctors can create patients.")`, so the valid request
of the plain admin yields an error, not a creation, and stores nothing. -/
theorem C5_plain_admin_create_rejected :
    (createPatient demoState adminPlain
      { name := "Admin Patient", age := 50, gender := "Male",
        address := "Admin Patient Address", created_by := none }).snd =
      CreatePatientResult.apiError "Only doctors can create patients." ∧
    ((createPatient demoState adminPlain
      { name := "Admin Patient", age := 50, gender := "Male",
        address := "Admin Patient Address", created_by := none }).fst).patients
      = demoState.patients := by
  refine ⟨rfl, rfl⟩

/-- Helper: a payload with a non-blank name of admissible length, positive
age, a gender from the choices and a non-blank address passes
`PatientSerializer` validation. -/
lemma patientValidate_eq_none (d : PatientPayload)
    (hname : d.name ≠ "") (hlen : d.name.length ≤ 255)
    (hage : 0 < d.age)
    (hg : d.gender = "Male" ∨ d.gender = "Female" ∨ d.gender = "Other")
    (haddr : d.address ≠ "") :
    patientValidate d = none := by
  unfold patientValidate
  rw [if_neg (by simp [hname]), if_neg (by omega),
      if_neg (by omega), if_neg (by rcases hg with h | h | h <;> simp [h]),
      if_neg (by simp [haddr])]

/-- C5 as amended: an authenticated actor whose profile role is doctor, or
who is a superuser (with any resolvable role), submitting a valid
create-patient request gets a successful creation with the new row owned
by the actor; a non-superuser with role admin is instead rejected by
`perform_create` (see the counterexample). -/
theorem C5_doctor_or_superuser_create_succeeds
    (s : State) (actor : UserRec) (d : PatientPayload) (r : String)
    (hrole : roleOf s actor.id = some r)
    (hwho : r = "doctor" ∨ actor.is_superuser = true)
    (hname : d.name ≠ "") (hlen : d.name.length ≤ 255)
    (hage : 0 < d.age)
    (hg : d.gender = "Male" ∨ d.gender = "Female" ∨ d.gender = "Other")
    (haddr : d.address ≠ "") :
    (createPatient s actor d).snd =
      CreatePatientResult.created
        { id := s.nextId, name := d.name, age := d.age, gender := d.gender,
          address := d.address, created_by := actor.id,
          created_at := s.clock } := by
  have hpv := patientValidate_eq_none d hname hlen hage hg haddr
  rcases hwho with h | h
  · subst h
    simp [createPatient, gateDoctorOrAdmin, IsDoctor_has_permission, hrole, hpv]
  · by_cases hd : r = "doctor"
    · subst hd
      simp [createPatient, gateDoctorOrAdmin, IsDoctor_has_permission, hrole, hpv, h]
    · have hrd : (r == "doctor") = false := by simp [hd]
      simp [createPatient, gateDoctorOrAdmin, IsDoctor_has_permission,
        IsAdmin_has_permission, hrole, hpv, h, hrd]

/-- Witness for C5 as amended: doctor 1 creating a valid patient in the
populated store succeeds and the stored row is owned by doctor 1. -/
theorem C5_doctor_or_superuser_create_succeeds_witness :
    roleOf demoState doctor1.id = some "doctor" ∧
    (createPatient demoState doctor1
      { name := "New Patient", age := 28, gender := "Female",
        address := "New Patient Address", created_by := none }).snd =
      CreatePatientResult.created
        { id := 30, name := "New Patient", age := 28, gender := "Female",
          address := "New Patient Address", created_by := 1,
          created_at := 8 } :=
  ⟨by decide,
   C5_doctor_or_superuser_create_succeeds demoState doctor1
     { name := "New Patient", age := 28, gender := "Female",
       address := "New Patient Address", created_by := none } "doctor"
     (by decide) (Or.inl rfl) (by decide) (by decide) (by decide)
     (Or.inr (Or.inl rfl)) (by decide)⟩

/-- C6: whenever a create-patient request succeeds, the stored row has
`created_by` equal to the acting user, whatever the payload carried (the
payload, including any caller-supplied `created_by` value, is universally
quantified and the serializer never reads that read-only field). -/
theorem C6_created_by_forced (s : State) (actor : UserRec)
    (d : PatientPayload) (p : PatientRec)
    (h : (createPatient s actor d).snd = CreatePatientResult.created p) :
    p.created_by = actor.id := by
  unfold createPatient at h
  split at h
  · simp at h
  · simp at h
  · split at h
    · simp at h
    · split at h
      · simp at h
      · simp at h
        subst h
        rfl

/-- Witness for C6: doctor 1 creates a patient while the payload tries to
claim user 99 as owner; the creation succeeds and the stored row is owned
by doctor 1 anyway. -/
theorem C6_created_by_forced_witness :
    (createPatient demoState doctor1
      { name := "New", age := 28, gender := "Female", address := "Addr",
        created_by := some 99 }).snd =
      CreatePatientResult.created
        { id := 30, name := "New", age := 28, gender := "Female",
          address := "Addr", created_by := 1, created_at := 8 } ∧
    PatientRec.created_by
      { id := 30, name := "New", age := 28, gender := "Female",
        address := "Addr", created_by := 1, created_at := 8 } = doctor1.id :=
  ⟨by decide,
   C6_created_by_forced demoState doctor1
     { name := "New", age := 28, gender := "Female", address := "Addr",
       created_by := some 99 }
     { id := 30, name := "New", age := 28, gender := "Female",
       address := "Addr", created_by := 1, created_at := 8 } (by decide)⟩

/-- C7: for an authenticated actor with a resolved role from the role
choices, list-patients answers 200 with exactly the full patient table
when the actor is a superuser or has role admin, and exactly the patients
the actor created otherwise, in both cases ordered newest-first by
`created_at`. -/
theorem C7_list_patients_scoped (s : State) (actor : UserRec) (r : String)
    (hrole : roleOf s actor.id = some r)
    (hr : r = "doctor" ∨ r = "admin") :
    ∃ l, listPatients s actor = ListPatientsResult.ok l ∧
      l.Perm (if actor.is_superuser = true ∨ r = "admin" then s.patients
              else s.patients.filter (fun p => p.created_by == actor.id)) ∧
      l.Sorted patientNewer := by
  rcases hr with h | h <;> subst h
  · by_cases hsu : actor.is_superuser
    · refine ⟨patientsNewestFirst s.patients, ?_, ?_, ?_⟩
      · simp [listPatients, gateDoctorOrAdmin, IsDoctor_has_permission, hrole,
          get_queryset_patients, hsu]
      · rw [if_pos (Or.inl hsu)]
        exact List.perm_insertionSort _ _
      · exact List.sorted_insertionSort _ _
    · have hsu' : actor.is_superuser = false := by simpa using hsu
      refine ⟨patientsNewestFirst
          (s.patients.filter (fun p => p.created_by == actor.id)), ?_, ?_, ?_⟩
      · simp [listPatients, gateDoctorOrAdmin, IsDoctor_has_permission, hrole,
          get_queryset_patients, hsu']
      · rw [if_neg (by simp [hsu'])]
        exact List.perm_insertionSort _ _
      · exact List.sorted_insertionSort _ _
  · refine ⟨patientsNewestFirst s.patients, ?_, ?_, ?_⟩
    · by_cases hsu : actor.is_superuser <;>
        simp [listPatients, gateDoctorOrAdmin, IsDoctor_has_permission,
          IsAdmin_has_permission, hrole, get_queryset_patients, hsu]
    · rw [if_pos (Or.inr rfl)]
      exact List.perm_insertionSort _ _
    · exact List.sorted_insertionSort _ _

/-- Witness for C7: doctor 1 in the populated store gets 200 with a
permutation of exactly their own patients, newest-first. -/
theorem C7_list_patients_scoped_witness :
    ∃ l, listPatients demoState doctor1 = ListPatientsResult.ok l ∧
      l.Perm (if doctor1.is_superuser = true ∨ "doctor" = "admin"
              then demoState.patients
              else demoState.patients.filter
                (fun p => p.created_by == doctor1.id)) ∧
      l.Sorted patientNewer :=
  C7_list_patients_scoped demoState doctor1 "doctor" (by decide) (Or.inl rfl)

/-- C8: for an authenticated actor with a resolved role, retrieve-one-
patient answers 404 whenever the pk resolves to no patient, regardless of
the actor; when it resolves, the patient is returned exactly when the
actor is superuser, role admin or the creator, and 403 otherwise — the
pk resolution runs before the authorization decision and the two outcomes
are distinct constructors. -/
theorem C8_retrieve_patient (s : State) (actor : UserRec) (pk : Nat) (r : String)
    (hrole : roleOf s actor.id = some r) :
    (findPatientById s pk = none →
      retrievePatient s actor pk = RetrievePatientResult.notFound) ∧
    (∀ p, findPatientById s pk = some p →
      ((actor.is_superuser = true ∨ r = "admin" ∨ p.created_by = actor.id) →
        retrievePatient s actor pk = RetrievePatientResult.ok p) ∧
      (actor.is_superuser = false → r ≠ "admin" → p.created_by ≠ actor.id →
        retrievePatient s actor pk = RetrievePatientResult.forbidden)) := by
  constructor
  · intro h
    simp [retrievePatient, h]
  · intro p hp
    constructor
    · intro hallow
      rcases hallow with h | h | h
      · simp [retrievePatient, hp, IsOwnerOrAdmin_has_object_permission, h]
      · subst h
        simp [retrievePatient, hp, IsOwnerOrAdmin_has_object_permission, hrole]
      · by_cases hsu : actor.is_superuser
        · simp [retrievePatient, hp, IsOwnerOrAdmin_has_object_permission, hsu]
        · have hsu' : actor.is_superuser = false := by simpa using hsu
          by_cases hadm : r = "admin"
          · subst hadm
            simp [retrievePatient, hp, IsOwnerOrAdmin_has_object_permission,
              hsu', hrole]
          · have h1 : (r == "admin") = false := by simp [hadm]
            simp [retrievePatient, hp, IsOwnerOrAdmin_has_object_permission,
              hsu', hrole, h1, h]
    · intro hsu hadm hown
      have h1 : (r == "admin") = false := by simp [hadm]
      have h2 : (p.created_by == actor.id) = false := by simp [hown]
      simp [retrievePatient, hp, IsOwnerOrAdmin_has_object_permission,
        hsu, hrole, h1, h2]

/-- Witness for C8: in the populated store, doctor 1 retrieves their own
patient A, is forbidden on doctor 2 patient C, and gets not-found on a pk
with no row. -/
theorem C8_retrieve_patient_witness :
    retrievePatient demoState doctor1 10 = RetrievePatientResult.ok patientA ∧
    retrievePatient demoState doctor1 11 = RetrievePatientResult.forbidden ∧
    retrievePatient demoState doctor1 999 = RetrievePatientResult.notFound :=
  ⟨((C8_retrieve_patient demoState doctor1 10 "doctor" (by decide)).2
      patientA (by decide)).1 (Or.inr (Or.inr (by decide))),
   ((C8_retrieve_patient demoState doctor1 11 "doctor" (by decide)).2
      patientC (by decide)).2 (by decide) (by decide) (by decide),
   (C8_retrieve_patient demoState doctor1 999 "doctor" (by decide)).1
      (by decide)⟩

/-- C9: a login with a username carried by no user and a login with a
known username but wrong password produce the very same response, 401 with
detail "Invalid credentials", and leave the store unchanged, so the two
failure causes are indistinguishable to the caller. -/
theorem C9_login_failures_indistinguishable (s : State)
    (n1 p1 n2 p2 : String) (u : UserRec)
    (h1 : ∀ x ∈ s.users, x.username ≠ n1)
    (h2 : findUserByUsername s n2 = some u)
    (h3 : u.password ≠ p2) :
    login_view s n1 p1 = login_view s n2 p2 ∧
    (login_view s n1 p1).snd = LoginResult.invalidCredentials ∧
    LoginResult.status (login_view s n1 p1).snd = 401 ∧
    LoginResult.detail (login_view s n1 p1).snd = "Invalid credentials" := by
  have ha1 : authenticate s n1 p1 = none := by
    unfold authenticate findUserByUsername
    rw [List.find?_eq_none.mpr (fun x hx => by simp [h1 x hx])]
  have ha2 : authenticate s n2 p2 = none := by
    unfold authenticate
    rw [h2]
    simp [h3]
  unfold login_view
  rw [ha1, ha2]
  exact ⟨rfl, rfl, rfl, rfl⟩

/-- Witness for C9: in the populated store, the login of an unknown user
and the login of doctor 1 with a wrong password give identical 401
responses with detail "Invalid credentials". -/
theorem C9_login_failures_indistinguishable_witness :
    login_view demoState "nonexistent" "wrongpassword" =
      login_view demoState "doctor1" "badpass" ∧
    (login_view demoState "nonexistent" "wrongpassword").snd =
      LoginResult.invalidCredentials ∧
    LoginResult.status (login_view demoState "nonexistent" "wrongpassword").snd
      = 401 ∧
    LoginResult.detail (login_view demoState "nonexistent" "wrongpassword").snd
      = "Invalid credentials" :=
  C9_login_failures_indistinguishable demoState "nonexistent" "wrongpassword"
    "doctor1" "badpass" doctor1 (by decide) (by decide) (by decide)

/-! Reachability: the store states producible by the operations of the
repository — the handlers of `views.py`, the direct
`User.objects.create_user` / `create_superuser` calls of the test fixture,
and the role update `profile.role = ...; profile.save()` the fixture
performs. List and retrieve endpoints read the store without changing it. -/

/-- `profile.role = role; profile.save()` on the profile of user `uid`. -/
def updateProfileRole (s : State) (uid : Nat) (role : String) : State :=
  { s with
    profiles := s.profiles.map fun pr =>
      if pr.user_id == uid then { pr with role := role } else pr }

/-- Store invariant: ids of users and profile owners stay below the
auto-increment counter, and every user owns at least one profile row. -/
def StoreInv (s : State) : Prop :=
  (∀ u ∈ s.users, u.id < s.nextId) ∧
  (∀ pr ∈ s.profiles, pr.user_id < s.nextId) ∧
  (∀ u ∈ s.users, ∃ pr ∈ s.profiles, pr.user_id = u.id)

/-- The states reachable from the empty database through the operations of
the repository. -/
inductive Reachable : State → Prop where
  | init : Reachable initialState
  | signup_step (s : State) (d : SignupData) :
      Reachable s → Reachable (signup s d).fst
  | create_user_step (s : State) (un em pw : String) (su : Bool) :
      Reachable s → Reachable (create_user s un em pw su).fst
  | login_step (s : State) (un pw : String) :
      Reachable s → Reachable (login_view s un pw).fst
  | create_patient_step (s : State) (actor : UserRec) (d : PatientPayload) :
      Reachable s → Reachable (createPatient s actor d).fst
  | add_record_step (s : State) (actor : UserRec) (d : RecordPayload) :
      Reachable s → Reachable (addRecord s actor d).fst
  | update_role_step (s : State) (uid : Nat) (role : String) :
      Reachable s → Reachable (updateProfileRole s uid role)

/-- `create_user` preserves the store invariant: the new user gets a fresh
id and the `post_save` hook hands it a profile in the same step. -/
lemma inv_create_user (s : State) (un em pw : String) (su : Bool)
    (h : StoreInv s) : StoreInv (create_user s un em pw su).fst := by
  obtain ⟨h1, h2, h3⟩ := h
  unfold create_user create_user_profile save_user_profile
  refine ⟨?_, ?_, ?_⟩
  · intro x hx
    simp only [List.mem_append, List.mem_singleton] at hx
    rcases hx with hx | hx
    · exact Nat.lt_succ_of_lt (h1 x hx)
    · subst hx
      exact Nat.lt_succ_self _
  · intro pr hpr
    simp only [List.mem_append, List.mem_singleton] at hpr
    rcases hpr with hpr | hpr
    · exact Nat.lt_succ_of_lt (h2 pr hpr)
    · subst hpr
      exact Nat.lt_succ_self _
  · intro x hx
    simp only [List.mem_append, List.mem_singleton] at hx
    rcases hx with hx | hx
    · obtain ⟨pr, hpr, hid⟩ := h3 x hx
      exact ⟨pr, List.mem_append_left _ hpr, hid⟩
    · subst hx
      exact ⟨{ user_id := s.nextId, role := "doctor" },
        List.mem_append_right _ (List.mem_singleton_self _), rfl⟩

/-- Token get-or-create touches only the token table, so the invariant is
untouched. -/
lemma inv_token_get_or_create (s : State) (uid : Nat) (h : StoreInv s) :
    StoreInv (token_get_or_create s uid).fst := by
  unfold token_get_or_create
  cases hf : s.tokens.find? (fun t => t.user_id == uid) with
  | some t => exact h
  | none => exact h

/-- A successful `Profile.objects.create` for a user id below the counter
preserves the invariant. -/
lemma inv_profileObjectsCreate (s : State) (uid : Nat) (role : String)
    (s' : State) (h : StoreInv s) (hu : uid < s.nextId)
    (he : profileObjectsCreate s uid role = .ok s') : StoreInv s' := by
  obtain ⟨h1, h2, h3⟩ := h
  unfold profileObjectsCreate at he
  split at he
  · simp at he
  · simp only [Except.ok.injEq] at he
    subst he
    refine ⟨h1, ?_, ?_⟩
    · intro pr hpr
      simp only [List.mem_append, List.mem_singleton] at hpr
      rcases hpr with hpr | hpr
      · exact h2 pr hpr
      · subst hpr
        exact hu
    · intro u hu'
      obtain ⟨pr, hpr, hid⟩ := h3 u hu'
      exact ⟨pr, List.mem_append_left _ hpr, hid⟩

/-- The signup endpoint preserves the store invariant on every branch. -/
lemma inv_signup (s : State) (d : SignupData) (h : StoreInv s) :
    StoreInv (signup s d).fst := by
  unfold signup
  cases hv : signupValidate s d with
  | some e => exact h
  | none =>
      have hc := inv_create_user s d.username d.email d.password false h
      simp only []
      cases hpc : profileObjectsCreate
          (create_user s d.username d.email d.password false).fst
          ((create_user s d.username d.email d.password false).snd).id
          d.role with
      | error e => exact hc
      | ok s2 =>
          have hid : ((create_user s d.username d.email d.password false).snd).id
              = s.nextId := rfl
          have hnx : ((create_user s d.username d.email d.password false).fst).nextId
              = s.nextId + 1 := rfl
          have hs2 : StoreInv s2 := by
            refine inv_profileObjectsCreate _ _ _ _ hc ?_ hpc
            rw [hid, hnx]
            exact Nat.lt_succ_self _
          exact inv_token_get_or_create s2 _ hs2

/-- The login endpoint preserves the store invariant on every branch. -/
lemma inv_login_view (s : State) (un pw : String) (h : StoreInv s) :
    StoreInv (login_view s un pw).fst := by
  unfold login_view
  cases ha : authenticate s un pw with
  | none => exact h
  | some u =>
      dsimp only
      cases hr : roleOf (token_get_or_create s u.id).fst u.id with
      | none => exact inv_token_get_or_create s u.id h
      | some r => exact inv_token_get_or_create s u.id h

/-- The create-patient endpoint preserves the store invariant. -/
lemma inv_createPatient (s : State) (actor : UserRec) (d : PatientPayload)
    (h : StoreInv s) : StoreInv (createPatient s actor d).fst := by
  obtain ⟨h1, h2, h3⟩ := h
  unfold createPatient
  repeat'
    first
      | exact ⟨h1, h2, h3⟩
      | exact ⟨fun x hx => Nat.lt_succ_of_lt (h1 x hx),
               fun pr hpr => Nat.lt_succ_of_lt (h2 pr hpr), h3⟩
      | split

/-- The add-record endpoint preserves the store invariant. -/
lemma inv_addRecord (s : State) (actor : UserRec) (d : RecordPayload)
    (h : StoreInv s) : StoreInv (addRecord s actor d).fst := by
  obtain ⟨h1, h2, h3⟩ := h
  unfold addRecord
  repeat'
    first
      | exact ⟨h1, h2, h3⟩
      | exact ⟨fun x hx => Nat.lt_succ_of_lt (h1 x hx),
               fun pr hpr => Nat.lt_succ_of_lt (h2 pr hpr), h3⟩
      | split

/-- A role update rewrites profile rows in place, preserving owners and
membership, hence the invariant. -/
lemma inv_updateProfileRole (s : State) (uid : Nat) (role : String)
    (h : StoreInv s) : StoreInv (updateProfileRole s uid role) := by
  obtain ⟨h1, h2, h3⟩ := h
  unfold updateProfileRole
  refine ⟨h1, ?_, ?_⟩
  · intro pr hpr
    obtain ⟨q, hq, hfq⟩ := List.mem_map.mp hpr
    subst hfq
    have := h2 q hq
    split
    · exact this
    · exact this
  · intro u hu
    obtain ⟨pr, hpr, hid⟩ := h3 u hu
    refine ⟨if pr.user_id == uid then { pr with role := role } else pr,
      List.mem_map_of_mem _ hpr, ?_⟩
    split
    · exact hid
    · exact hid

/-- Every reachable store satisfies the invariant. -/
lemma reachable_inv (s : State) (h : Reachable s) : StoreInv s := by
  induction h with
  | init =>
      refine ⟨?_, ?_, ?_⟩ <;> intro x hx <;> simp [initialState] at hx
  | signup_step s d _ ih => exact inv_signup s d ih
  | create_user_step s un em pw su _ ih => exact inv_create_user s un em pw su ih
  | login_step s un pw _ ih => exact inv_login_view s un pw ih
  | create_patient_step s actor d _ ih => exact inv_createPatient s actor d ih
  | add_record_step s actor d _ ih => exact inv_addRecord s actor d ih
  | update_role_step s uid role _ ih => exact inv_updateProfileRole s uid role ih

/-- Helper: `find?` skips a prefix on which the predicate is false. -/
lemma find?_append_of_all_false {α : Type} (l1 l2 : List α) (p : α → Bool)
    (h : ∀ x ∈ l1, p x = false) : (l1 ++ l2).find? p = l2.find? p := by
  induction l1 with
  | nil => rfl
  | cons a l ih =>
      have ha : ¬(p a = true) := by simp [h a (List.mem_cons_self a l)]
      rw [List.cons_append, List.find?_cons_of_neg _ ha]
      exact ih (fun x hx => h x (List.mem_cons_of_mem a hx))

/-- C10: in every reachable store every user owns a Profile row, so every
permission check that dereferences `user.profile.role` (here `IsDoctor`)
evaluates without raising; and on any creation path, the user produced by
`create_user` has, at the moment of creation, a profile whose role is the
default doctor, inserted by the `post_save` hook. -/
theorem C10_every_user_has_profile (s : State) (h : Reachable s) :
    (∀ u ∈ s.users, (profileFor s u.id).isSome = true) ∧
    (∀ u ∈ s.users, ∃ b, IsDoctor_has_permission s u = Except.ok b) ∧
    (∀ un em pw su,
      roleOf (create_user s un em pw su).fst
        ((create_user s un em pw su).snd).id = some "doctor") := by
  obtain ⟨h1, h2, h3⟩ := reachable_inv s h
  have hps : ∀ u ∈ s.users, (profileFor s u.id).isSome = true := by
    intro u hu
    obtain ⟨pr, hpr, hid⟩ := h3 u hu
    unfold profileFor
    rw [List.find?_isSome]
    exact ⟨pr, hpr, by simp [hid]⟩
  refine ⟨hps, ?_, ?_⟩
  · intro u hu
    have hs := hps u hu
    unfold IsDoctor_has_permission roleOf
    cases hf : profileFor s u.id with
    | none => rw [hf] at hs; simp at hs
    | some pr => simp [hf]
  · intro un em pw su
    unfold create_user create_user_profile save_user_profile roleOf profileFor
    simp only []
    rw [find?_append_of_all_false _ _ _
      (fun pr hpr => by simp [Nat.ne_of_lt (h2 pr hpr)])]
    simp

/-- Witness for C10: after creating doctor 1 in the empty store, the user
has a profile, and at creation the profile role of a user made by
`create_user` on the empty store is the default doctor. -/
theorem C10_every_user_has_profile_witness :
    (profileFor (create_user initialState "doctor1" "" "doc1pass" false).fst
      1).isSome = true ∧
    roleOf (create_user initialState "doctor1" "" "doc1pass" false).fst 1
      = some "doctor" :=
  ⟨(C10_every_user_has_profile
      (create_user initialState "doctor1" "" "doc1pass" false).fst
      (Reachable.create_user_step initialState "doctor1" "" "doc1pass" false
        Reachable.init)).1
      (create_user initialState "doctor1" "" "doc1pass" false).snd (by decide),
   (C10_every_user_has_profile initialState Reachable.init).2.2
      "doctor1" "" "doc1pass" false⟩
